import Mathlib

/-!
Verification development for `webui.py`: a single-run browser-agent
supervisor that broadcasts log/stream/result/error events to websocket
observers.  The definitions below are a shallow embedding of the source:
fallible external collaborators (environment lookup, LLM client factory,
browser construction, context acquisition, agent delegation, teardown
closes) are injected as `Except`/`Option` valued fields of `RunEnv`,
and the control flow of the Python `try/except/finally` blocks is
translated statement by statement.
-/

namespace WebUI

/-- Events broadcast over the websocket, mirroring the JSON payloads
`{"type": ..., "data": ...}` built in `webui.py`.  A `result` carries the
agent history's final result, which may be absent (Python `None`). -/
inductive Event where
  | log (data : String)
  | stream (data : String)
  | result (data : Option String)
  | error (data : String)
deriving DecidableEq

/-- Python truthiness of an optional string: `None` and `""` are falsy. -/
def truthy : Option String → Bool
  | none => false
  | some s => s ≠ ""

/-- Python `a or b` on an optional string `a` and fallback `b`:
yields `a` when it is truthy, otherwise `b`. -/
def pyOrStr (a b : Option String) : Option String :=
  if truthy a then a else b

/-- Model of Python percent-interpolation (`msg % args`) restricted to the
string conversions the intercepted log messages use: `%s` consumes one
argument, `%%` is a literal percent; a trailing or unknown conversion, a
missing argument, or leftover arguments make the whole interpolation fail
(Python raises), modelled as `none`. -/
def pyInterp : List Char → List String → Option (List Char)
  | [], [] => some []
  | [], _ :: _ => none
  | '%' :: '%' :: rest, args =>
      (pyInterp rest args).map (fun t => '%' :: t)
  | '%' :: 's' :: rest, a :: args =>
      (pyInterp rest args).map (fun t => a.data ++ t)
  | '%' :: 's' :: _, [] => none
  | '%' :: _, _ => none
  | c :: rest, args =>
      (pyInterp rest args).map (fun t => c :: t)

/-- The string-level wrapper of `pyInterp`, i.e. `msg % args`. -/
def pyFormat (msg : String) (args : List String) : Option String :=
  (pyInterp msg.data args).map (fun l => String.mk l)

/-- The data broadcast by `log_to_socket` in `webui.py`: the interpolated
message when `msg % args` succeeds, else the raw message text `str(msg)`
(the `except` fallback). -/
def logToSocketData (msg : String) (args : List String) : String :=
  match pyFormat msg args with
  | some s => s
  | none => msg

/-- The event `log_to_socket` schedules for broadcast: always a `log`
event, never dropped and never an error. -/
def logToSocket (msg : String) (args : List String) : Event :=
  Event.log (logToSocketData msg args)

/-- The request model `AgentRunRequest` of `webui.py`, with its field
defaults.  The float literal `0.6` is embedded as the rational `6/10`. -/
structure AgentRunRequest where
  task : String
  llm_provider : String := "google"
  llm_model_name : Option String := none
  llm_temperature : Rat := 6/10
  llm_base_url : Option String := none
  llm_api_key : Option String := none
deriving DecidableEq

/-- The environment-variable name derived in `run_agent_logic`:
`f"{config.llm_provider.upper()}_API_KEY"`. -/
def envVarName (provider : String) : String :=
  provider.toUpper ++ "_API_KEY"

/-- Modelled from the spec: `MissingAPIKeyError` lives in
`src/utils/utils.py`, which is not part of the sources; the spec calls it
the MissingCredential error naming the provider and the environment
variable that was consulted.  Only the fact that a distinguished error
text is produced matters to the claims. -/
def missingApiKeyMsg (provider envVar : String) : String :=
  "Missing API key for provider " ++ provider ++ ": set " ++ envVar

/-- External collaborators and failure-injection points of one run.
`getenv` is `os.getenv`; `modelNames` is `utils.model_names`; the
`Except` fields model whether each awaited/called collaborator raises
(`error msg`) or succeeds; `agentRun` yields `history.final_result()`;
`agentMidLogs` are the `(template, args)` pairs the agent emits through
the patched `agent_logger.info` during `agent.run`. -/
structure RunEnv where
  getenv : String → Option String
  modelNames : String → Option (List String)
  getLlm : Except String Unit
  browserCtor : Except String Unit
  newContext : Except String Unit
  agentRun : Except String (Option String)
  agentMidLogs : List (String × List String)
  contextClose : Except String Unit
  browserClose : Except String Unit

/-- The resolved value of the local `llm_api_key` in `run_agent_logic`:
`config.llm_api_key or os.getenv(env_var_name)`. -/
def resolvedKey (cfg : AgentRunRequest) (env : RunEnv) : Option String :=
  pyOrStr cfg.llm_api_key (env.getenv (envVarName cfg.llm_provider))

/-- The "Agent starting" announcement emitted through the patched
`agent_logger.info`, i.e. through `log_to_socket` with no arguments. -/
def agentStartLog (cfg : AgentRunRequest) : Event :=
  logToSocket ("Agent starting for task: " ++ cfg.task) []

/-- The events the agent's own informational messages become while the
Log Interception Shim is installed: each `(template, args)` pair goes
through `log_to_socket`. -/
def midLogEvents (env : RunEnv) : List Event :=
  env.agentMidLogs.map (fun p => logToSocket p.1 p.2)

/-- Outcome of the `try` block of `run_agent_logic`: the events broadcast
so far, which browser resources were acquired, the value the local
`llm_api_key` resolved to (when the missing-key check passed), and either
the agent's final result or the exception that aborted the block. -/
structure TryResult where
  events : List Event
  browserAcquired : Bool
  contextAcquired : Bool
  resolvedCredential : Option String
  bodyOutcome : Except String (Option String)

/-- The `try` block of `run_agent_logic`, statement by statement:
credential resolution (`config.llm_api_key or os.getenv(...)` and the
falsy check raising `MissingAPIKeyError`), model-name defaulting
(`utils.model_names.get(provider, [""])[0]`, an `IndexError` when the
configured list is empty), LLM construction, the "Browser starting..."
broadcast, browser construction, context acquisition, the patched-logger
"Agent starting" broadcast, the agent's intercepted mid-run logs, and the
final `result` extraction. -/
def tryPhase (cfg : AgentRunRequest) (env : RunEnv) : TryResult :=
  let envVar := envVarName cfg.llm_provider
  let llmApiKey := resolvedKey cfg env
  if truthy llmApiKey = false then
    ⟨[], false, false, none, Except.error (missingApiKeyMsg cfg.llm_provider envVar)⟩
  else
    match (env.modelNames cfg.llm_provider).getD [""] with
    | [] =>
      ⟨[], false, false, llmApiKey, Except.error "IndexError: list index out of range"⟩
    | defaultModel :: _ =>
      let _modelName := pyOrStr cfg.llm_model_name (some defaultModel)
      match env.getLlm with
      | Except.error e => ⟨[], false, false, llmApiKey, Except.error e⟩
      | Except.ok _ =>
        let ev := [Event.log "Browser starting..."]
        match env.browserCtor with
        | Except.error e => ⟨ev, false, false, llmApiKey, Except.error e⟩
        | Except.ok _ =>
          match env.newContext with
          | Except.error e => ⟨ev, true, false, llmApiKey, Except.error e⟩
          | Except.ok _ =>
            let asLog := agentStartLog cfg
            let mids := midLogEvents env
            match env.agentRun with
            | Except.error e =>
              ⟨ev ++ [asLog] ++ mids, true, true, llmApiKey, Except.error e⟩
            | Except.ok r =>
              ⟨ev ++ [asLog] ++ mids, true, true, llmApiKey, Except.ok r⟩

/-- One step of the `finally` block of `run_agent_logic`. -/
inductive TdOp where
  | restoreHandler
  | closeContext
  | closeBrowser
  | announceClosed
deriving DecidableEq

/-- Outcome of the `finally` block: the teardown operations reached in
order, the events it broadcast, whether `_global_browser_context` was
reset to `None`, and the exception (if any) escaping the block. -/
structure FinResult where
  ops : List TdOp
  events : List Event
  globalContextCleared : Bool
  escaped : Option String

/-- The `finally` block of `run_agent_logic`: restore the patched logger,
close the context if `_global_browser_context` is set (clearing it only
after a successful close), close the browser if the local was bound, then
broadcast "Session closed.".  There is no exception handling inside the
block: a failing close aborts the remaining statements and escapes. -/
def finallyPhase (browserAcquired contextAcquired : Bool) (env : RunEnv) : FinResult :=
  let ops0 := [TdOp.restoreHandler]
  if contextAcquired then
    match env.contextClose with
    | Except.error e => ⟨ops0 ++ [TdOp.closeContext], [], false, some e⟩
    | Except.ok _ =>
      if browserAcquired then
        match env.browserClose with
        | Except.error e =>
          ⟨ops0 ++ [TdOp.closeContext, TdOp.closeBrowser], [], true, some e⟩
        | Except.ok _ =>
          ⟨ops0 ++ [TdOp.closeContext, TdOp.closeBrowser, TdOp.announceClosed],
            [Event.log "Session closed."], true, none⟩
      else
        ⟨ops0 ++ [TdOp.closeContext, TdOp.announceClosed],
          [Event.log "Session closed."], true, none⟩
  else
    if browserAcquired then
      match env.browserClose with
      | Except.error e => ⟨ops0 ++ [TdOp.closeBrowser], [], true, some e⟩
      | Except.ok _ =>
        ⟨ops0 ++ [TdOp.closeBrowser, TdOp.announceClosed],
          [Event.log "Session closed."], true, none⟩
    else
      ⟨ops0 ++ [TdOp.announceClosed], [Event.log "Session closed."], true, none⟩

/-- Observable outcome of one whole `run_agent_logic` invocation. -/
structure RunOutcome where
  events : List Event
  browserAcquired : Bool
  contextAcquired : Bool
  resolvedCredential : Option String
  teardownOps : List TdOp
  globalContextCleared : Bool
  escapedError : Option String
  taskDone : Bool

/-- Whether an event is a terminal event (`result` or `error`). -/
def isTerminal : Event → Bool
  | Event.result _ => true
  | Event.error _ => true
  | _ => false

/-- Whether an event is a `log` or `stream` event. -/
def isMid : Event → Bool
  | Event.log _ => true
  | Event.stream _ => true
  | _ => false

/-- Whether an event is a `stream` (snapshot) event. -/
def isStream : Event → Bool
  | Event.stream _ => true
  | _ => false

/-- The whole of `run_agent_logic`: the `try` block, then — on success the
`result` broadcast, on any body exception the `except` block's `error`
broadcast — then the `finally` block.  The coroutine always finishes
(normally or with an escaping teardown exception), so the wrapping
`asyncio` task reaches `done()`: `taskDone` is true. -/
def run_agent_logic (cfg : AgentRunRequest) (env : RunEnv) : RunOutcome :=
  let t := tryPhase cfg env
  let term :=
    match t.bodyOutcome with
    | Except.error e => Event.error e
    | Except.ok r => Event.result r
  let fin := finallyPhase t.browserAcquired t.contextAcquired env
  { events := t.events ++ [term] ++ fin.events
    browserAcquired := t.browserAcquired
    contextAcquired := t.contextAcquired
    resolvedCredential := t.resolvedCredential
    teardownOps := fin.ops
    globalContextCleared := fin.globalContextCleared
    escapedError := fin.escaped
    taskDone := true }

/-- Behaviour of `websocket.send_text` on one observer: it delivers, or
raises `WebSocketDisconnect`, or raises some other exception with the
given message (for example the runtime error starlette raises when
sending on a closed socket). -/
inductive SendResult where
  | ok
  | disconnected
  | failed (msg : String)
deriving DecidableEq

/-- The helper `send_socket_message` of `webui.py`: iterate over
`active_websockets` in order; `WebSocketDisconnect` is caught and
ignored (`except WebSocketDisconnect: pass`), any other exception
escapes the loop immediately, so observers later in the list are not
attempted.  The successful result lists, per observer in order, whether
the message was delivered to it. -/
def send_socket_message : List SendResult → Except String (List Bool)
  | [] => Except.ok []
  | SendResult.ok :: rest =>
      (send_socket_message rest).map (fun l => true :: l)
  | SendResult.disconnected :: rest =>
      (send_socket_message rest).map (fun l => false :: l)
  | SendResult.failed m :: _ => Except.error m

/-- A playwright page as seen by the snapshot poller: its address and
whether it is closed. -/
structure PwPage where
  url : String
  closed : Bool
deriving DecidableEq

/-- The page-selection expression of `stream_browser_view`:
`next((p for p in reversed(pw_context.pages) if p.url != "about:blank"), None)`.
It does not consult the open/closed state. -/
def selectPage (pages : List PwPage) : Option PwPage :=
  pages.reverse.find? (fun p => p.url ≠ "about:blank")

/-- One tick of `stream_browser_view`'s body: select a page; if one was
selected and it is not closed, capture a screenshot (`capture` yields
the base64-encoded JPEG, or `none` when the screenshot call raises, in
which case the `except Exception: pass` swallows it); the result is the
`stream` event sent this tick, or `none` when the tick is skipped. -/
def pollerTick (pages : List PwPage) (capture : PwPage → Option String) : Option Event :=
  match selectPage pages with
  | some page =>
    if page.closed = false then
      match capture page with
      | some b64 => some (Event.stream b64)
      | none => none
    else none
  | none => none

/-- The poller loop over the ticks that occur while the agent task is
not done: each scheduled tick is processed by `pollerTick`, and no tick
outcome can abort the loop. -/
def pollerRun (ticks : List (List PwPage × (PwPage → Option String))) : List (Option Event) :=
  ticks.map (fun t => pollerTick t.1 t.2)

/-- Selection policy as the claim words it ("the first still-open page
whose address is not the blank placeholder", scanning in reverse
creation order) — stated for comparison with `selectPage`, which is the
source's policy. -/
def claimSelectPage (pages : List PwPage) : Option PwPage :=
  pages.reverse.find? (fun p => p.closed = false ∧ p.url ≠ "about:blank")

/-- The run handle stored in the module-global `_global_agent_task`:
only its `done()` observation matters to admission. -/
structure RunHandle where
  done : Bool
deriving DecidableEq

/-- Truthiness of `_global_agent_task and not _global_agent_task.done()`:
a run is active when a handle exists and is not done. -/
def runActive : Option RunHandle → Bool
  | none => false
  | some h => !h.done

/-- Response of `POST /agent/run`: the HTTP status code and the JSON
body fields produced by `start_agent_run`. -/
structure StartResponse where
  statusCode : Nat
  status : String
  task : Option String
deriving DecidableEq

/-- The `start_agent_run` endpoint: if a run is active, reply 409 and do
not touch the stored handle; otherwise create the detached task for
`run_agent_logic` (a fresh, not-yet-done handle) and reply 200.  The
handler body has no suspension point between the check and the
assignment, so under cooperative scheduling it executes atomically. -/
def start_agent_run (s : Option RunHandle) (req : AgentRunRequest) :
    StartResponse × Option RunHandle :=
  if runActive s then
    ({ statusCode := 409, status := "An agent is already running.", task := none }, s)
  else
    ({ statusCode := 200, status := "Agent run started.", task := some req.task },
      some { done := false })

/-- A burst of near-simultaneous `start` calls, processed in scheduling
order, each call atomic: returns how many were admitted (status 200) and
the final stored handle. -/
def processBurst (s : Option RunHandle) : List AgentRunRequest → Nat × Option RunHandle
  | [] => (0, s)
  | r :: rs =>
    let step := start_agent_run s r
    let rest := processBurst step.2 rs
    ((if step.1.statusCode = 200 then 1 else 0) + rest.1, rest.2)

/-- Number of non-terminal run handles held by the process-wide slot. -/
def nonTerminalCount (s : Option RunHandle) : Nat :=
  if runActive s then 1 else 0

/-- Fuel-indexed hold loop of `websocket_endpoint`
(`while _global_agent_task and not _global_agent_task.done(): await asyncio.sleep(1)`),
starting at tick `t` with `fuel` ticks of run activity remaining.  The
loop body is a bare sleep: nothing inside it can raise, so the only exit
is the loop condition turning false.  Returns the exit tick. -/
def holdLoop : Nat → Nat → Nat
  | 0, t => t
  | fuel + 1, t => holdLoop fuel (t + 1)

/-- Observable outcome of one `websocket_endpoint` invocation. -/
structure WsOutcome where
  registered : Bool
  messagesConsumed : Nat
  disconnectObserved : Bool
  pollerStarted : Bool
  pollerCancelled : Bool
  exitTick : Nat
  unregistered : Bool
  errorPropagated : Bool
deriving DecidableEq

/-- The `websocket_endpoint` handler: accept and register the observer;
inside `try`, sleep one tick, start the per-connection snapshot poller
if the run is still active, then hold the connection sleeping while the
run is active; `finally` cancels the poller if one was started and
removes the observer from `active_websockets`.  The run is active at
ticks `t < runEnd`.  The handler performs no websocket receive after
`accept()`, and the server raises `WebSocketDisconnect` only out of
receive calls, so the handler's `except WebSocketDisconnect` clause is
unreachable: a disconnection of the remote side — `remoteGone`, the
tick at which the remote goes away, when it does — is invisible to the
hold loop, and the outcome does not depend on it. -/
def websocket_endpoint (runEnd : Nat) (_remoteGone : Option Nat) : WsOutcome :=
  { registered := true
    messagesConsumed := 0
    disconnectObserved := false
    pollerStarted := decide (1 < runEnd)
    pollerCancelled := decide (1 < runEnd)
    exitTick := holdLoop (runEnd - 1) 1
    unregistered := true
    errorPropagated := false }

/-- A run request as it arrives at the HTTP boundary, before pydantic
validation: each field either present with a parsed value or omitted. -/
structure RawRunRequest where
  task : Option String
  llm_provider : Option String
  llm_model_name : Option (Option String)
  llm_temperature : Option Rat
  llm_base_url : Option (Option String)
  llm_api_key : Option (Option String)

/-- Pydantic validation of `AgentRunRequest`: `task` has no default and
is required (an omitted `task` rejects the request); every other field
is completed with its declared default. -/
def parseAgentRunRequest (r : RawRunRequest) : Option AgentRunRequest :=
  match r.task with
  | none => none
  | some t => some
    { task := t
      llm_provider := r.llm_provider.getD "google"
      llm_model_name := r.llm_model_name.getD none
      llm_temperature := r.llm_temperature.getD (6/10)
      llm_base_url := r.llm_base_url.getD none
      llm_api_key := r.llm_api_key.getD none }

/-- Whether one observer's send raises something other than
`WebSocketDisconnect`. -/
def isFailed : SendResult → Bool
  | SendResult.failed _ => true
  | _ => false

/-- Whether one observer's send delivers the message. -/
def deliveredFlag : SendResult → Bool
  | SendResult.ok => true
  | _ => false

/-- Fixture: an environment in which every collaborator succeeds and the
agent finishes with final result "done". -/
def okEnv : RunEnv :=
  { getenv := fun _ => none
    modelNames := fun _ => none
    getLlm := Except.ok ()
    browserCtor := Except.ok ()
    newContext := Except.ok ()
    agentRun := Except.ok (some "done")
    agentMidLogs := []
    contextClose := Except.ok ()
    browserClose := Except.ok () }

/-- Fixture: like `okEnv` but closing the browser context raises. -/
def ctxCloseFailEnv : RunEnv :=
  { okEnv with contextClose := Except.error "context close failed" }

/-- Fixture: like `okEnv` but every environment variable (in particular
the derived `GOOGLE_API_KEY`) is set to "envkey". -/
def envWithGoogleKey : RunEnv :=
  { okEnv with getenv := fun _ => some "envkey" }

/-- Fixture: a request carrying an explicit API key. -/
def keyedCfg : AgentRunRequest := { task := "t", llm_api_key := some "k" }

/-- Fixture: a request with no API key (provider defaults to google). -/
def unkeyedCfg : AgentRunRequest := { task := "t" }

/-- Order-preserving interleaving of two broadcast streams: what a
single continuously-connected observer receives from the supervisor task
and the concurrently running snapshot poller under cooperative
scheduling — each broadcast is delivered in its task's emission order,
and the two orders are merged at the suspension points. -/
inductive Merge : List Event → List Event → List Event → Prop where
  | nil : Merge [] [] []
  | left {xs ys zs : List Event} (e : Event) :
      Merge xs ys zs → Merge (e :: xs) ys (e :: zs)
  | right {xs ys zs : List Event} (e : Event) :
      Merge xs ys zs → Merge xs (e :: ys) (e :: zs)

/-- Fixture: an observer trace of a successful run of `keyedCfg` in
`okEnv` in which the poller delivers one frame between the `result`
event and the session-closure log.  This schedule is reachable: the
poller's loop condition `not _global_agent_task.done()` stays true
throughout the `finally` block, so a tick during the awaited
`_global_browser_context.close()` captures and broadcasts a frame after
the terminal event and before "Session closed.". -/
def c3ViolTrace : List Event :=
  [Event.log "Browser starting...",
   Event.log "Agent starting for task: t",
   Event.result (some "done"),
   Event.stream "frame",
   Event.log "Session closed."]

/-! Theorems. -/

/-- The events of a run decompose into the `try` block's events, the
single terminal event, and the `finally` block's events. -/
theorem run_events_eq (cfg : AgentRunRequest) (env : RunEnv) :
    (run_agent_logic cfg env).events =
      (tryPhase cfg env).events ++
        [match (tryPhase cfg env).bodyOutcome with
         | Except.error e => Event.error e
         | Except.ok r => Event.result r] ++
        (finallyPhase (tryPhase cfg env).browserAcquired
          (tryPhase cfg env).contextAcquired env).events := rfl

/-- Case analysis on where the `try` block of `run_agent_logic` stops. -/
theorem tryPhase_shape (cfg : AgentRunRequest) (env : RunEnv) :
    (truthy (resolvedKey cfg env) = false ∧
      tryPhase cfg env = ⟨[], false, false, none,
        Except.error (missingApiKeyMsg cfg.llm_provider (envVarName cfg.llm_provider))⟩) ∨
    (truthy (resolvedKey cfg env) = true ∧ ∃ e, tryPhase cfg env =
      ⟨[], false, false, resolvedKey cfg env, Except.error e⟩) ∨
    (truthy (resolvedKey cfg env) = true ∧ ∃ e, tryPhase cfg env =
      ⟨[Event.log "Browser starting..."], false, false, resolvedKey cfg env,
        Except.error e⟩) ∨
    (truthy (resolvedKey cfg env) = true ∧ ∃ e, tryPhase cfg env =
      ⟨[Event.log "Browser starting..."], true, false, resolvedKey cfg env,
        Except.error e⟩) ∨
    (truthy (resolvedKey cfg env) = true ∧ ∃ e, tryPhase cfg env =
      ⟨[Event.log "Browser starting...", agentStartLog cfg] ++ midLogEvents env,
        true, true, resolvedKey cfg env, Except.error e⟩) ∨
    (truthy (resolvedKey cfg env) = true ∧ ∃ r, tryPhase cfg env =
      ⟨[Event.log "Browser starting...", agentStartLog cfg] ++ midLogEvents env,
        true, true, resolvedKey cfg env, Except.ok r⟩) := by
  cases h : truthy (resolvedKey cfg env) with
  | false =>
    exact Or.inl ⟨rfl, by simp [tryPhase, h]⟩
  | true =>
    rcases hm : (env.modelNames cfg.llm_provider).getD [""] with _ | ⟨d, ds⟩
    · exact Or.inr (Or.inl ⟨rfl, "IndexError: list index out of range",
        by simp [tryPhase, h, hm]⟩)
    · rcases hg : env.getLlm with e | u
      · exact Or.inr (Or.inl ⟨rfl, e, by simp [tryPhase, h, hm, hg]⟩)
      · rcases hb : env.browserCtor with e | u
        · exact Or.inr (Or.inr (Or.inl ⟨rfl, e, by simp [tryPhase, h, hm, hg, hb]⟩))
        · rcases hc : env.newContext with e | u
          · exact Or.inr (Or.inr (Or.inr (Or.inl
              ⟨rfl, e, by simp [tryPhase, h, hm, hg, hb, hc]⟩)))
          · rcases ha : env.agentRun with e | r
            · exact Or.inr (Or.inr (Or.inr (Or.inr (Or.inl
                ⟨rfl, e, by simp [tryPhase, h, hm, hg, hb, hc, ha]⟩))))
            · exact Or.inr (Or.inr (Or.inr (Or.inr (Or.inr
                ⟨rfl, r, by simp [tryPhase, h, hm, hg, hb, hc, ha]⟩))))

/-- When both closes succeed, the `finally` block performs the full
teardown sequence and announces session closure. -/
theorem finallyPhase_ok (bA cA : Bool) (env : RunEnv)
    (hc : env.contextClose = Except.ok ()) (hb : env.browserClose = Except.ok ()) :
    finallyPhase bA cA env =
      ⟨[TdOp.restoreHandler] ++ (if cA then [TdOp.closeContext] else []) ++
          (if bA then [TdOp.closeBrowser] else []) ++ [TdOp.announceClosed],
        [Event.log "Session closed."], true, none⟩ := by
  cases cA <;> cases bA <;> simp [finallyPhase, hc, hb]

/-- The `finally` block broadcasts either nothing (a close failed) or
exactly the session-closure log. -/
theorem finallyPhase_events (bA cA : Bool) (env : RunEnv) :
    (finallyPhase bA cA env).events = [] ∨
    (finallyPhase bA cA env).events = [Event.log "Session closed."] := by
  cases cA <;> cases bA <;>
    rcases hc : env.contextClose with e | u <;>
    rcases hb : env.browserClose with e2 | u2 <;>
    simp [finallyPhase, hc, hb]

/-- A `log` event is not terminal. -/
theorem isTerminal_log (s : String) : isTerminal (Event.log s) = false := rfl

/-- A `stream` event is not terminal. -/
theorem isTerminal_stream (s : String) : isTerminal (Event.stream s) = false := rfl

/-- The intercepted agent logs are all `log` events. -/
theorem midLogEvents_all_log (env : RunEnv) :
    (midLogEvents env).all isMid = true := by
  rw [List.all_eq_true]
  intro e he
  obtain ⟨p, _, rfl⟩ := List.mem_map.mp he
  rfl

/-- The intercepted agent logs contain no terminal event. -/
theorem midLogEvents_no_terminal (env : RunEnv) :
    (midLogEvents env).countP (fun e => isTerminal e) = 0 := by
  rw [List.countP_eq_zero]
  intro e he
  obtain ⟨p, _, rfl⟩ := List.mem_map.mp he
  simp [logToSocket, isTerminal]

/-- Pointwise form: no intercepted agent log is a terminal event. -/
theorem midLogEvents_not_terminal (env : RunEnv) :
    ∀ e ∈ midLogEvents env, isTerminal e = false := by
  intro e he
  obtain ⟨p, _, rfl⟩ := List.mem_map.mp he
  rfl

/-- The `try` block broadcasts no terminal event. -/
theorem tryPhase_events_no_terminal (cfg : AgentRunRequest) (env : RunEnv) :
    (tryPhase cfg env).events.countP (fun e => isTerminal e) = 0 := by
  rcases tryPhase_shape cfg env with ⟨h, heq⟩ | ⟨h, e, heq⟩ | ⟨h, e, heq⟩ |
    ⟨h, e, heq⟩ | ⟨h, e, heq⟩ | ⟨h, r, heq⟩ <;>
  simp [heq, List.countP_cons, midLogEvents_no_terminal, midLogEvents_not_terminal,
    isTerminal_log, agentStartLog, logToSocket]

/-- A list of non-terminal events around one terminal event counts
exactly one terminal. -/
theorem countP_term (pre : List Event)
    (hpre : pre.countP (fun e => isTerminal e) = 0) (term : Event)
    (hterm : isTerminal term = true) (post : List Event)
    (hpost : post.countP (fun e => isTerminal e) = 0) :
    (pre ++ [term] ++ post).countP (fun e => isTerminal e) = 1 := by
  simp [List.countP_append, List.countP_cons, hpre, hpost, hterm]

/-- Every run broadcasts exactly one terminal (`result`/`error`) event,
wherever it fails and even when teardown fails. -/
theorem run_events_terminal_count (cfg : AgentRunRequest) (env : RunEnv) :
    (run_agent_logic cfg env).events.countP (fun e => isTerminal e) = 1 := by
  rw [run_events_eq]
  refine countP_term _ (tryPhase_events_no_terminal cfg env) _ ?_ _ ?_
  · cases hE : (tryPhase cfg env).bodyOutcome <;> simp [hE, isTerminal]
  · rcases finallyPhase_events (tryPhase cfg env).browserAcquired
      (tryPhase cfg env).contextAcquired env with hf | hf <;>
      simp [hf, isTerminal]

/-- C10: at the HTTP boundary a request carrying only `task` is completed
with defaults provider "google", temperature 0.6, and absent model name,
base URL and API key; a request omitting `task` is rejected, whatever
else it carries. -/
theorem c10_request_defaults (t : String) (p : Option String)
    (m : Option (Option String)) (tm : Option Rat) (b : Option (Option String))
    (k : Option (Option String)) :
    parseAgentRunRequest ⟨some t, none, none, none, none, none⟩ =
      some { task := t, llm_provider := "google", llm_model_name := none,
             llm_temperature := 6/10, llm_base_url := none, llm_api_key := none } ∧
    parseAgentRunRequest ⟨none, p, m, tm, b, k⟩ = none :=
  ⟨rfl, rfl⟩

/-- C7: the log shim always broadcasts a `log` event: the interpolated
text when `msg % args` succeeds, the raw message text when interpolation
fails; it never drops the event and never propagates a formatting
error. -/
theorem c7_log_fallback (msg : String) (args : List String) :
    logToSocket msg args = Event.log (logToSocketData msg args) ∧
    (pyFormat msg args = none → logToSocket msg args = Event.log msg) ∧
    (∀ s, pyFormat msg args = some s → logToSocket msg args = Event.log s) := by
  refine ⟨rfl, fun h => ?_, fun s h => ?_⟩
  · simp [logToSocket, logToSocketData, h]
  · simp [logToSocket, logToSocketData, h]

/-- Witness for C7: a failing interpolation falls back to the raw text,
a succeeding one broadcasts the interpolated text. -/
theorem c7_log_fallback_witness :
    logToSocket "progress %d" ["x"] = Event.log "progress %d" ∧
    logToSocket "agent %s" ["ready"] = Event.log "agent ready" :=
  ⟨(c7_log_fallback "progress %d" ["x"]).2.1 (by decide),
   (c7_log_fallback "agent %s" ["ready"]).2.2 "agent ready" (by decide)⟩

/-- A burst of start calls arriving while a run is active admits none of
them and leaves the stored handle untouched. -/
theorem processBurst_active (s : Option RunHandle) (h : runActive s = true) :
    ∀ rs, processBurst s rs = (0, s)
  | [] => rfl
  | r :: rs => by
    simp [processBurst, start_agent_run, h, processBurst_active s h rs]

/-- C2: admission control — while a run is active every start call is
rejected with 409 and does not touch the stored run; from an inactive
state exactly one call of a burst is admitted; the slot never holds more
than one non-terminal handle. -/
theorem c2_single_admission (s : Option RunHandle) (rs : List AgentRunRequest)
    (r : AgentRunRequest) :
    (runActive s = true →
      start_agent_run s r =
        ({ statusCode := 409, status := "An agent is already running.",
           task := none }, s) ∧
      processBurst s rs = (0, s)) ∧
    (runActive s = false → 1 ≤ rs.length →
      (processBurst s rs).1 = 1 ∧
      (processBurst s rs).2 = some { done := false }) ∧
    nonTerminalCount (processBurst s rs).2 ≤ 1 := by
  refine ⟨fun h => ⟨by simp [start_agent_run, h], processBurst_active s h rs⟩,
    fun h hn => ?_, ?_⟩
  · cases rs with
    | nil => simp at hn
    | cons r0 rs0 =>
      have hact : runActive (some { done := false }) = true := rfl
      simp [processBurst, start_agent_run, h, processBurst_active _ hact rs0]
  · unfold nonTerminalCount
    split <;> simp

/-- Witness for C2: with a run active, two further calls are both
rejected; from the empty state a two-call burst admits exactly one. -/
theorem c2_single_admission_witness :
    processBurst (some { done := false })
      [{ task := "a" }, { task := "b" }] = (0, some { done := false }) ∧
    (processBurst none [{ task := "a" }, { task := "b" }]).1 = 1 :=
  ⟨((c2_single_admission (some { done := false })
      [{ task := "a" }, { task := "b" }] { task := "a" }).1 rfl).2,
   ((c2_single_admission none [{ task := "a" }, { task := "b" }]
      { task := "a" }).2.1 rfl (by decide)).1⟩

/-- C8: every run emits exactly one terminal event and its task handle
then reads as done, so RunState is empty again and the next start call
is admitted with a 200 response. -/
theorem c8_runstate_reset (cfg : AgentRunRequest) (env : RunEnv) :
    (run_agent_logic cfg env).taskDone = true ∧
    (run_agent_logic cfg env).events.countP (fun e => isTerminal e) = 1 ∧
    runActive (some { done := (run_agent_logic cfg env).taskDone }) = false ∧
    (start_agent_run (some { done := (run_agent_logic cfg env).taskDone }) cfg).1 =
      { statusCode := 200, status := "Agent run started.", task := some cfg.task } :=
  ⟨rfl, run_events_terminal_count cfg env, rfl, rfl⟩

/-- The `finally` block's events embed into the optional trailing
session-closure log. -/
theorem finEv_sub (SC : Event) (finEv : List Event)
    (hf : finEv = [] ∨ finEv = [SC]) : List.Sublist finEv [SC] := by
  rcases hf with rfl | rfl
  · exact List.nil_sublist _
  · exact List.Sublist.refl _

/-- Pattern embedding for a run that stopped before any broadcast. -/
theorem subpat_nil (BS ASl asLog SC term : Event) (mids finEv : List Event)
    (hf : finEv = [] ∨ finEv = [SC]) :
    List.Sublist ([term] ++ finEv)
      ([BS, ASl] ++ (asLog :: mids) ++ [term, SC]) := by
  have h1 : List.Sublist (term :: finEv) [term, SC] :=
    List.Sublist.cons₂ term (finEv_sub SC finEv hf)
  have h2 : List.Sublist ([term, SC]) ((asLog :: mids) ++ [term, SC]) :=
    List.sublist_append_right _ _
  have h3 : List.Sublist ((asLog :: mids) ++ [term, SC])
      ([BS, ASl] ++ ((asLog :: mids) ++ [term, SC])) :=
    List.sublist_append_right _ _
  exact h1.trans (h2.trans h3)

/-- Pattern embedding for a run that stopped after announcing browser
startup. -/
theorem subpat_bs (BS ASl asLog SC term : Event) (mids finEv : List Event)
    (hf : finEv = [] ∨ finEv = [SC]) :
    List.Sublist ([BS] ++ [term] ++ finEv)
      ([BS, ASl] ++ (asLog :: mids) ++ [term, SC]) := by
  show List.Sublist (BS :: (term :: finEv))
    (BS :: ASl :: ((asLog :: mids) ++ [term, SC]))
  refine List.Sublist.cons₂ BS (List.Sublist.cons ASl ?_)
  have h1 : List.Sublist (term :: finEv) [term, SC] :=
    List.Sublist.cons₂ term (finEv_sub SC finEv hf)
  exact h1.trans (List.sublist_append_right _ _)

/-- Pattern embedding for a run that reached the agent. -/
theorem subpat_full (BS ASl asLog SC term : Event) (mids finEv : List Event)
    (hf : finEv = [] ∨ finEv = [SC]) :
    List.Sublist (([BS, asLog] ++ mids) ++ [term] ++ finEv)
      ([BS, ASl] ++ (asLog :: mids) ++ [term, SC]) := by
  have hL : ([BS, asLog] ++ mids) ++ [term] ++ finEv =
      BS :: asLog :: (mids ++ (term :: finEv)) := by simp
  have hR : [BS, ASl] ++ (asLog :: mids) ++ [term, SC] =
      BS :: ASl :: asLog :: (mids ++ [term, SC]) := by simp
  rw [hL, hR]
  refine List.Sublist.cons₂ BS (List.Sublist.cons ASl
    (List.Sublist.cons₂ asLog ?_))
  have h1 : List.Sublist (term :: finEv) [term, SC] :=
    List.Sublist.cons₂ term (finEv_sub SC finEv hf)
  exact h1.append_left mids

/-- The chosen middle segment of the pattern is all `log`/`stream`. -/
theorem mids_choice_all (cfg : AgentRunRequest) (env : RunEnv) :
    (agentStartLog cfg :: midLogEvents env).all isMid = true := by
  simp [List.all_cons, midLogEvents_all_log, agentStartLog, logToSocket, isMid]

/-- The supervisor's own broadcast sequence forms a subsequence of the
pattern — browser-startup log, agent-start log, some log/stream events,
exactly one terminal (`result`/`error`) event, session-closure log —
and contains exactly one terminal event. -/
theorem run_events_pattern (cfg : AgentRunRequest) (env : RunEnv) :
    ∃ mids term,
      mids.all isMid = true ∧ isTerminal term = true ∧
      List.Sublist (run_agent_logic cfg env).events
        ([Event.log "Browser starting...",
          Event.log ("Agent starting for task: " ++ cfg.task)] ++ mids ++
          [term, Event.log "Session closed."]) ∧
      (run_agent_logic cfg env).events.countP (fun e => isTerminal e) = 1 := by
  have hcount := run_events_terminal_count cfg env
  have hfin := finallyPhase_events (tryPhase cfg env).browserAcquired
    (tryPhase cfg env).contextAcquired env
  rcases tryPhase_shape cfg env with ⟨h, heq⟩ | ⟨h, e, heq⟩ | ⟨h, e, heq⟩ |
    ⟨h, e, heq⟩ | ⟨h, e, heq⟩ | ⟨h, r, heq⟩
  · refine ⟨agentStartLog cfg :: midLogEvents env,
      Event.error (missingApiKeyMsg cfg.llm_provider (envVarName cfg.llm_provider)),
      mids_choice_all cfg env, rfl, ?_, hcount⟩
    rw [run_events_eq, heq]
    rw [heq] at hfin
    exact subpat_nil _ _ _ _ _ _ _ hfin
  · refine ⟨agentStartLog cfg :: midLogEvents env, Event.error e,
      mids_choice_all cfg env, rfl, ?_, hcount⟩
    rw [run_events_eq, heq]
    rw [heq] at hfin
    exact subpat_nil _ _ _ _ _ _ _ hfin
  · refine ⟨agentStartLog cfg :: midLogEvents env, Event.error e,
      mids_choice_all cfg env, rfl, ?_, hcount⟩
    rw [run_events_eq, heq]
    rw [heq] at hfin
    exact subpat_bs _ _ _ _ _ _ _ hfin
  · refine ⟨agentStartLog cfg :: midLogEvents env, Event.error e,
      mids_choice_all cfg env, rfl, ?_, hcount⟩
    rw [run_events_eq, heq]
    rw [heq] at hfin
    exact subpat_bs _ _ _ _ _ _ _ hfin
  · refine ⟨agentStartLog cfg :: midLogEvents env, Event.error e,
      mids_choice_all cfg env, rfl, ?_, hcount⟩
    rw [run_events_eq, heq]
    rw [heq] at hfin
    exact subpat_full _ _ _ _ _ _ _ hfin
  · refine ⟨agentStartLog cfg :: midLogEvents env, Event.result r,
      mids_choice_all cfg env, rfl, ?_, hcount⟩
    rw [run_events_eq, heq]
    rw [heq] at hfin
    exact subpat_full _ _ _ _ _ _ _ hfin

/-- No intercepted agent log is a `stream` event. -/
theorem midLogEvents_not_stream (env : RunEnv) :
    ∀ e ∈ midLogEvents env, isStream e = false := by
  intro e he
  obtain ⟨p, _, rfl⟩ := List.mem_map.mp he
  rfl

/-- A `log` event is not a `stream` event. -/
theorem isStream_log (s : String) : isStream (Event.log s) = false := rfl

/-- The intercepted agent logs contain no `stream` event. -/
theorem midLogEvents_no_stream (env : RunEnv) :
    (midLogEvents env).countP (fun e => isStream e) = 0 := by
  rw [List.countP_eq_zero]
  intro e he
  obtain ⟨p, _, rfl⟩ := List.mem_map.mp he
  simp [logToSocket, isStream]

/-- The `try` block broadcasts no `stream` event. -/
theorem tryPhase_events_no_stream (cfg : AgentRunRequest) (env : RunEnv) :
    ∀ x ∈ (tryPhase cfg env).events, isStream x = false := by
  have hc : (tryPhase cfg env).events.countP (fun e => isStream e) = 0 := by
    rcases tryPhase_shape cfg env with ⟨h, heq⟩ | ⟨h, e, heq⟩ | ⟨h, e, heq⟩ |
      ⟨h, e, heq⟩ | ⟨h, e, heq⟩ | ⟨h, r, heq⟩ <;>
    simp [heq, List.countP_cons, midLogEvents_no_stream, midLogEvents_not_stream,
      isStream_log, agentStartLog, logToSocket]
  intro x hx
  exact Bool.eq_false_iff.mpr (List.countP_eq_zero.mp hc x hx)

/-- The supervisor task broadcasts no `stream` event: streams come only
from the snapshot poller. -/
theorem run_events_no_stream (cfg : AgentRunRequest) (env : RunEnv) :
    ∀ x ∈ (run_agent_logic cfg env).events, isStream x = false := by
  rw [run_events_eq]
  intro x hx
  rcases List.mem_append.mp hx with hx1 | hfin
  · rcases List.mem_append.mp hx1 with htry | hterm
    · exact tryPhase_events_no_stream cfg env x htry
    · rw [List.mem_singleton.mp hterm]
      cases hE : (tryPhase cfg env).bodyOutcome <;> simp [hE, isStream]
  · rcases finallyPhase_events (tryPhase cfg env).browserAcquired
      (tryPhase cfg env).contextAcquired env with hf | hf <;> rw [hf] at hfin
    · exact False.elim (List.not_mem_nil x hfin)
    · rw [List.mem_singleton.mp hfin]
      rfl

/-- Dropping all events of one side of an interleaving recovers the
other side. -/
theorem merge_filter {xs ys zs : List Event} (hm : Merge xs ys zs) :
    (∀ y ∈ ys, isStream y = true) → (∀ x ∈ xs, isStream x = false) →
    zs.filter (fun e => !isStream e) = xs := by
  induction hm with
  | nil =>
    intro _ _
    rfl
  | left e h ih =>
    intro hys hxs
    have he : isStream e = false := hxs e (List.mem_cons_self _ _)
    rw [List.filter_cons]
    simp [he, ih hys (fun x hx => hxs x (List.mem_cons_of_mem _ hx))]
  | right e h ih =>
    intro hys hxs
    have he : isStream e = true := hys e (List.mem_cons_self _ _)
    rw [List.filter_cons]
    simp [he, ih (fun y hy => hys y (List.mem_cons_of_mem _ hy)) hxs]

/-- An interleaving carries exactly the events of its two sides. -/
theorem merge_countP {xs ys zs : List Event} (hm : Merge xs ys zs)
    (p : Event → Bool) :
    zs.countP p = xs.countP p + ys.countP p := by
  induction hm with
  | nil => rfl
  | left e h ih =>
    cases hp : p e <;> simp [List.countP_cons, ih, hp]
    all_goals omega
  | right e h ih =>
    cases hp : p e <;> simp [List.countP_cons, ih, hp]
    all_goals omega

/-- A `log`/`stream` event is not terminal. -/
theorem isMid_not_terminal (e : Event) (h : isMid e = true) :
    isTerminal e = false := by
  cases e <;> simp [isMid, isTerminal] at h ⊢

/-- Lists without terminal events vacuously keep every stream ahead of
every terminal. -/
theorem pairwise_of_no_terminal (l : List Event)
    (h : ∀ x ∈ l, isTerminal x = false) :
    List.Pairwise (fun x y => isTerminal x = true → isStream y = false) l := by
  induction l with
  | nil => exact List.Pairwise.nil
  | cons a l ih =>
    refine List.Pairwise.cons ?_ (ih fun x hx => h x (List.mem_cons_of_mem _ hx))
    intro y _ hta
    exact absurd hta (by simp [h a (List.mem_cons_self _ _)])

/-- In the claimed event pattern, no `stream` event ever follows a
terminal event: the middle segment precedes the sole terminal, and after
it only the closure log remains. -/
theorem pattern_pairwise (a b term SC : Event) (mids : List Event)
    (ha : isTerminal a = false) (hb : isTerminal b = false)
    (hmids : mids.all isMid = true) (hSC : isStream SC = false) :
    List.Pairwise (fun x y => isTerminal x = true → isStream y = false)
      ([a, b] ++ mids ++ [term, SC]) := by
  have hmids' : ∀ x ∈ mids, isTerminal x = false := fun x hx =>
    isMid_not_terminal x (List.all_eq_true.mp hmids x hx)
  rw [List.pairwise_append]
  refine ⟨?_, ?_, ?_⟩
  · rw [List.pairwise_append]
    refine ⟨?_, pairwise_of_no_terminal mids hmids', ?_⟩
    · simp only [List.pairwise_cons, List.mem_singleton, List.Pairwise.nil,
        and_true, List.not_mem_nil, false_implies, implies_true]
      intro a2 ha2 hta
      exact absurd hta (by simp [ha])
    · intro x hx y _ hta
      rcases List.mem_cons.mp hx with rfl | hx2
      · exact absurd hta (by simp [ha])
      · rw [List.mem_singleton.mp hx2] at hta
        exact absurd hta (by simp [hb])
  · simp only [List.pairwise_cons, List.mem_singleton]
    exact ⟨fun y hy _ => by rw [hy]; exact hSC, by simp⟩
  · intro x hx y _ hta
    rcases List.mem_append.mp hx with hx1 | hx2
    · rcases List.mem_cons.mp hx1 with rfl | hx3
      · exact absurd hta (by simp [ha])
      · rw [List.mem_singleton.mp hx3] at hta
        exact absurd hta (by simp [hb])
    · exact absurd hta (by simp [hmids' x hx2])

/-- Counterexample to C3 as stated: a reachable observer trace of a
successful run in which a poller frame arrives between the `result`
event and the session-closure log.  It is an interleaving of the
supervisor's broadcasts with one stream event, yet it is not a
subsequence of any instance of the claimed pattern, which admits
log/stream events only before the terminal event. -/
theorem c3_event_sequence_counterexample :
    Merge (run_agent_logic keyedCfg okEnv).events [Event.stream "frame"]
      c3ViolTrace ∧
    ¬ ∃ mids term, mids.all isMid = true ∧ isTerminal term = true ∧
      List.Sublist c3ViolTrace
        ([Event.log "Browser starting...",
          Event.log "Agent starting for task: t"] ++ mids ++
          [term, Event.log "Session closed."]) := by
  constructor
  · have hre : (run_agent_logic keyedCfg okEnv).events =
        [Event.log "Browser starting...",
         Event.log "Agent starting for task: t",
         Event.result (some "done"),
         Event.log "Session closed."] := by decide
    rw [hre]
    exact Merge.left _ (Merge.left _ (Merge.left _ (Merge.right _
      (Merge.left _ Merge.nil))))
  · rintro ⟨mids, term, hmids, _, hsub⟩
    have hpw := List.Pairwise.sublist hsub
      (pattern_pairwise (Event.log "Browser starting...")
        (Event.log "Agent starting for task: t") term
        (Event.log "Session closed.") mids rfl rfl hmids rfl)
    rw [c3ViolTrace] at hpw
    rcases hpw with _ | ⟨_, hpw⟩
    rcases hpw with _ | ⟨_, hpw⟩
    rcases hpw with _ | ⟨h3, _⟩
    have h4 := h3 (Event.stream "frame") (by simp)
    exact absurd (h4 rfl) (by simp [isStream])

/-- C3 (amended): what a continuously-connected observer receives is an
order-preserving interleaving of the supervisor's broadcasts with the
poller's stream events; removing the stream events leaves exactly the
supervisor's sequence, which is a prefix-consistent subsequence of
log("Browser starting..."), log("Agent starting for task: <task>"),
zero or more log/stream events, exactly one of result/error,
log("Session closed."); and the observer receives exactly one terminal
event.  Stream events themselves may appear anywhere, also between the
terminal event and the closure log or after it. -/
theorem c3_event_sequence_amended (cfg : AgentRunRequest) (env : RunEnv)
    (streams : List String) (tr : List Event)
    (hm : Merge (run_agent_logic cfg env).events
      (streams.map Event.stream) tr) :
    tr.filter (fun e => !isStream e) = (run_agent_logic cfg env).events ∧
    tr.countP (fun e => isTerminal e) = 1 ∧
    ∃ mids term, mids.all isMid = true ∧ isTerminal term = true ∧
      List.Sublist (run_agent_logic cfg env).events
        ([Event.log "Browser starting...",
          Event.log ("Agent starting for task: " ++ cfg.task)] ++ mids ++
          [term, Event.log "Session closed."]) := by
  refine ⟨merge_filter hm ?_ (run_events_no_stream cfg env), ?_, ?_⟩
  · intro y hy
    obtain ⟨s, _, rfl⟩ := List.mem_map.mp hy
    rfl
  · rw [merge_countP hm, run_events_terminal_count]
    have hz : (streams.map Event.stream).countP (fun e => isTerminal e) = 0 := by
      rw [List.countP_eq_zero]
      intro a ha
      obtain ⟨s, _, rfl⟩ := List.mem_map.mp ha
      simp [isTerminal]
    rw [hz]
  · obtain ⟨mids, term, h1, h2, h3, _⟩ := run_events_pattern cfg env
    exact ⟨mids, term, h1, h2, h3⟩

/-- Witness for C3 (amended): on the concrete interleaved trace with a
late frame, filtering the stream events recovers the supervisor's
sequence and the observer still sees exactly one terminal event. -/
theorem c3_event_sequence_amended_witness :
    c3ViolTrace.filter (fun e => !isStream e) =
      (run_agent_logic keyedCfg okEnv).events ∧
    c3ViolTrace.countP (fun e => isTerminal e) = 1 := by
  have hre : (run_agent_logic keyedCfg okEnv).events =
      [Event.log "Browser starting...",
       Event.log "Agent starting for task: t",
       Event.result (some "done"),
       Event.log "Session closed."] := by decide
  have hm : Merge (run_agent_logic keyedCfg okEnv).events
      (List.map Event.stream ["frame"]) c3ViolTrace := by
    rw [hre]
    exact Merge.left _ (Merge.left _ (Merge.left _ (Merge.right _
      (Merge.left _ Merge.nil))))
  exact ⟨(c3_event_sequence_amended keyedCfg okEnv ["frame"] c3ViolTrace hm).1,
    (c3_event_sequence_amended keyedCfg okEnv ["frame"] c3ViolTrace hm).2.1⟩

/-- Projection: a run's teardown operations come from the `finally`
block. -/
theorem run_teardownOps_eq (cfg : AgentRunRequest) (env : RunEnv) :
    (run_agent_logic cfg env).teardownOps =
      (finallyPhase (tryPhase cfg env).browserAcquired
        (tryPhase cfg env).contextAcquired env).ops := rfl

/-- Projection: context acquisition is decided in the `try` block. -/
theorem run_contextAcquired_eq (cfg : AgentRunRequest) (env : RunEnv) :
    (run_agent_logic cfg env).contextAcquired =
      (tryPhase cfg env).contextAcquired := rfl

/-- Projection: browser acquisition is decided in the `try` block. -/
theorem run_browserAcquired_eq (cfg : AgentRunRequest) (env : RunEnv) :
    (run_agent_logic cfg env).browserAcquired =
      (tryPhase cfg env).browserAcquired := rfl

/-- Projection: an escaping exception comes from the `finally` block. -/
theorem run_escaped_eq (cfg : AgentRunRequest) (env : RunEnv) :
    (run_agent_logic cfg env).escapedError =
      (finallyPhase (tryPhase cfg env).browserAcquired
        (tryPhase cfg env).contextAcquired env).escaped := rfl

/-- Projection: the global-context flag comes from the `finally` block. -/
theorem run_globalCleared_eq (cfg : AgentRunRequest) (env : RunEnv) :
    (run_agent_logic cfg env).globalContextCleared =
      (finallyPhase (tryPhase cfg env).browserAcquired
        (tryPhase cfg env).contextAcquired env).globalContextCleared := rfl

/-- Projection: the resolved credential comes from the `try` block. -/
theorem run_resolved_eq (cfg : AgentRunRequest) (env : RunEnv) :
    (run_agent_logic cfg env).resolvedCredential =
      (tryPhase cfg env).resolvedCredential := rfl

/-- Counterexample to C1 as stated: when closing the browser context
raises during teardown, the error is not swallowed — the browser process
close is skipped (never invoked although the browser was acquired), the
final session-closure log is never emitted, and the exception escapes
the run. -/
theorem c1_teardown_counterexample :
    (run_agent_logic keyedCfg ctxCloseFailEnv).browserAcquired = true ∧
    (run_agent_logic keyedCfg ctxCloseFailEnv).teardownOps =
      [TdOp.restoreHandler, TdOp.closeContext] ∧
    ((run_agent_logic keyedCfg ctxCloseFailEnv).events.contains
      (Event.log "Session closed.")) = false ∧
    (run_agent_logic keyedCfg ctxCloseFailEnv).escapedError =
      some "context close failed" ∧
    (run_agent_logic keyedCfg ctxCloseFailEnv).globalContextCleared = false := by
  refine ⟨rfl, rfl, ?_, rfl, rfl⟩
  decide

/-- C1 (amended): on every run, whatever earlier step failed, the
teardown runs exactly once — the log handler is restored first, the
context close is invoked exactly once when a context was acquired, then
the browser close exactly once when a browser was acquired — and when
those closes do not themselves raise, the session-closure log is the
final event, the global context is cleared, no exception escapes, and
the run handle reaches its terminal state.  (Teardown errors are not
swallowed: see the counterexample.) -/
theorem c1_teardown_amended (cfg : AgentRunRequest) (env : RunEnv)
    (hc : env.contextClose = Except.ok ()) (hb : env.browserClose = Except.ok ()) :
    (run_agent_logic cfg env).teardownOps =
      [TdOp.restoreHandler] ++
        (if (run_agent_logic cfg env).contextAcquired then [TdOp.closeContext] else []) ++
        (if (run_agent_logic cfg env).browserAcquired then [TdOp.closeBrowser] else []) ++
        [TdOp.announceClosed] ∧
    (run_agent_logic cfg env).teardownOps.count TdOp.closeContext =
      (if (run_agent_logic cfg env).contextAcquired then 1 else 0) ∧
    (run_agent_logic cfg env).teardownOps.count TdOp.closeBrowser =
      (if (run_agent_logic cfg env).browserAcquired then 1 else 0) ∧
    (run_agent_logic cfg env).events.getLast? = some (Event.log "Session closed.") ∧
    (run_agent_logic cfg env).escapedError = none ∧
    (run_agent_logic cfg env).globalContextCleared = true ∧
    (run_agent_logic cfg env).taskDone = true := by
  have hfin := finallyPhase_ok (tryPhase cfg env).browserAcquired
    (tryPhase cfg env).contextAcquired env hc hb
  refine ⟨?_, ?_, ?_, ?_, ?_, ?_, rfl⟩
  · rw [run_teardownOps_eq, hfin, run_contextAcquired_eq, run_browserAcquired_eq]
  · rw [run_teardownOps_eq, hfin, run_contextAcquired_eq]
    cases hA : (tryPhase cfg env).contextAcquired <;>
      cases hB : (tryPhase cfg env).browserAcquired <;> decide
  · rw [run_teardownOps_eq, hfin, run_browserAcquired_eq]
    cases hA : (tryPhase cfg env).contextAcquired <;>
      cases hB : (tryPhase cfg env).browserAcquired <;> decide
  · rw [run_events_eq]
    have hev : (finallyPhase (tryPhase cfg env).browserAcquired
        (tryPhase cfg env).contextAcquired env).events =
        [Event.log "Session closed."] := by rw [hfin]
    rw [hev]
    exact List.getLast?_concat _
  · rw [run_escaped_eq, hfin]
  · rw [run_globalCleared_eq, hfin]

/-- Witness for C1 (amended): a fully successful run ends with the
session-closure log and the full teardown sequence. -/
theorem c1_teardown_amended_witness :
    (run_agent_logic keyedCfg okEnv).events.getLast? =
      some (Event.log "Session closed.") ∧
    (run_agent_logic keyedCfg okEnv).teardownOps.count TdOp.closeBrowser = 1 := by
  refine ⟨(c1_teardown_amended keyedCfg okEnv rfl rfl).2.2.2.1, ?_⟩
  have h := (c1_teardown_amended keyedCfg okEnv rfl rfl).2.2.1
  rw [h]
  decide

/-- The credential the run resolves is the truthy value of
`config.llm_api_key or os.getenv(env_var_name)`, when there is one. -/
theorem run_resolvedCredential (cfg : AgentRunRequest) (env : RunEnv) :
    (run_agent_logic cfg env).resolvedCredential =
      (if truthy (resolvedKey cfg env) = true then resolvedKey cfg env else none) := by
  rcases tryPhase_shape cfg env with ⟨h, heq⟩ | ⟨h, e, heq⟩ | ⟨h, e, heq⟩ |
    ⟨h, e, heq⟩ | ⟨h, e, heq⟩ | ⟨h, r, heq⟩ <;>
  · show (tryPhase cfg env).resolvedCredential = _
    rw [heq, h]
    simp

/-- C4: credential resolution uses the explicit key of the request when
one is present (non-empty), else the environment variable named by
uppercasing the provider and appending "_API_KEY"; when neither yields a
key the run fails with the MissingCredential error before any browser
resource is acquired — no browser, no context, no close calls, and the
only broadcasts are the error and the session-closure log. -/
theorem c4_credential_resolution (cfg : AgentRunRequest) (env : RunEnv) :
    (∀ s, cfg.llm_api_key = some s → s ≠ "" →
      (run_agent_logic cfg env).resolvedCredential = some s) ∧
    (truthy cfg.llm_api_key = false →
      ∀ t, env.getenv (envVarName cfg.llm_provider) = some t → t ≠ "" →
      (run_agent_logic cfg env).resolvedCredential = some t) ∧
    (truthy (resolvedKey cfg env) = false →
      (run_agent_logic cfg env).resolvedCredential = none ∧
      (run_agent_logic cfg env).events =
        [Event.error (missingApiKeyMsg cfg.llm_provider (envVarName cfg.llm_provider)),
         Event.log "Session closed."] ∧
      (run_agent_logic cfg env).browserAcquired = false ∧
      (run_agent_logic cfg env).contextAcquired = false ∧
      (run_agent_logic cfg env).teardownOps =
        [TdOp.restoreHandler, TdOp.announceClosed]) := by
  refine ⟨fun s hs hsne => ?_, fun hfalsy t ht htne => ?_, fun hmiss => ?_⟩
  · have hk : resolvedKey cfg env = some s := by
      simp [resolvedKey, pyOrStr, truthy, hs, hsne]
    rw [run_resolvedCredential, hk]
    simp [truthy, hsne]
  · have hk : resolvedKey cfg env = some t := by
      simp [resolvedKey, pyOrStr, hfalsy, ht]
    rw [run_resolvedCredential, hk]
    simp [truthy, htne]
  · rcases tryPhase_shape cfg env with ⟨h, heq⟩ | ⟨h, e, heq⟩ | ⟨h, e, heq⟩ |
      ⟨h, e, heq⟩ | ⟨h, e, heq⟩ | ⟨h, r, heq⟩
    · refine ⟨?_, ?_, ?_, ?_, ?_⟩
      · rw [run_resolved_eq, heq]
      · rw [run_events_eq, heq]
        rfl
      · rw [run_browserAcquired_eq, heq]
      · rw [run_contextAcquired_eq, heq]
      · rw [run_teardownOps_eq, heq]
        rfl
    all_goals exact absurd h (by rw [hmiss]; exact Bool.false_ne_true)

/-- Witness for C4: an explicit key wins; with no explicit key the
`GOOGLE_API_KEY` environment variable is used; with neither, the run
acquires no browser and broadcasts only the missing-credential error and
the closure log. -/
theorem c4_credential_resolution_witness :
    (run_agent_logic keyedCfg okEnv).resolvedCredential = some "k" ∧
    (run_agent_logic unkeyedCfg envWithGoogleKey).resolvedCredential = some "envkey" ∧
    (run_agent_logic unkeyedCfg okEnv).browserAcquired = false :=
  ⟨(c4_credential_resolution keyedCfg okEnv).1 "k" rfl (by decide),
   (c4_credential_resolution unkeyedCfg envWithGoogleKey).2.1 rfl "envkey"
     rfl (by decide),
   ((c4_credential_resolution unkeyedCfg okEnv).2.2 (by decide)).2.2.1⟩

/-- Counterexample to C5 as stated: a non-disconnect send failure on the
first observer raises to the broadcaster and prevents delivery to the
second observer, whereas a disconnect is isolated. -/
theorem c5_broadcast_counterexample :
    send_socket_message [SendResult.failed "RuntimeError", SendResult.ok] =
      Except.error "RuntimeError" ∧
    send_socket_message [SendResult.disconnected, SendResult.ok] =
      Except.ok [false, true] :=
  ⟨rfl, rfl⟩

/-- C5 (amended): broadcast isolates only `WebSocketDisconnect`: when no
observer's send raises anything else, the broadcast completes without an
error visible to the broadcaster and every non-disconnected observer
receives the message; the first non-disconnect send failure, however,
escapes to the broadcaster and no observer after it is attempted. -/
theorem c5_broadcast_amended (obs pre rest : List SendResult) (m : String) :
    (obs.all (fun o => !isFailed o) = true →
      send_socket_message obs = Except.ok (obs.map deliveredFlag)) ∧
    (pre.all (fun o => !isFailed o) = true →
      send_socket_message (pre ++ SendResult.failed m :: rest) = Except.error m) := by
  constructor
  · intro h
    induction obs with
    | nil => rfl
    | cons o os ih =>
      rw [List.all_cons] at h
      obtain ⟨ho, hos⟩ := Bool.and_eq_true_iff.mp h
      cases o with
      | ok => simp [send_socket_message, deliveredFlag, Except.map, ih hos]
      | disconnected => simp [send_socket_message, deliveredFlag, Except.map, ih hos]
      | failed m2 => simp [isFailed] at ho
  · intro h
    induction pre with
    | nil => rfl
    | cons o os ih =>
      rw [List.all_cons] at h
      obtain ⟨ho, hos⟩ := Bool.and_eq_true_iff.mp h
      cases o with
      | ok => simp [send_socket_message, Except.map, ih hos]
      | disconnected => simp [send_socket_message, Except.map, ih hos]
      | failed m2 => simp [isFailed] at ho

/-- Witness for C5 (amended): a leading disconnect is isolated and the
rest of the observers are delivered to; a non-disconnect failure after a
healthy observer aborts with the broadcaster seeing the error. -/
theorem c5_broadcast_amended_witness :
    send_socket_message [SendResult.disconnected, SendResult.ok, SendResult.ok] =
      Except.ok [false, true, true] ∧
    send_socket_message [SendResult.ok, SendResult.failed "boom"] =
      Except.error "boom" :=
  ⟨(c5_broadcast_amended [SendResult.disconnected, SendResult.ok, SendResult.ok]
      [] [] "boom").1 (by decide),
   (c5_broadcast_amended [] [SendResult.ok] [] "boom").2 (by decide)⟩

/-- Counterexample to C6 as stated: with pages
[blank, pageA(open), pageB(closed)], the claimed policy ("first
still-open non-blank page in reverse creation order") selects pageA, but
the code selects pageB without regard to its closed state and then skips
the tick entirely, emitting nothing although an open non-blank page
exists and capture succeeds on every page. -/
theorem c6_snapshot_counterexample :
    claimSelectPage
        [{ url := "about:blank", closed := false },
         { url := "http://a", closed := false },
         { url := "http://b", closed := true }] =
      some { url := "http://a", closed := false } ∧
    selectPage
        [{ url := "about:blank", closed := false },
         { url := "http://a", closed := false },
         { url := "http://b", closed := true }] =
      some { url := "http://b", closed := true } ∧
    pollerTick
        [{ url := "about:blank", closed := false },
         { url := "http://a", closed := false },
         { url := "http://b", closed := true }]
        (fun p => some p.url) = none := by
  refine ⟨?_, ?_, ?_⟩ <;> decide

/-- C6 (amended): each tick selects the first page in reverse creation
order whose address is not "about:blank", without regard to open state;
if that page is open the tick streams its capture, if it is closed, or
no non-blank page exists, or capture fails, the tick is silently
skipped; the claim's concrete examples hold, and polling processes every
scheduled tick regardless of capture failures. -/
theorem c6_snapshot_amended (pages : List PwPage) (capture : PwPage → Option String)
    (p : PwPage) (ticks : List (List PwPage × (PwPage → Option String))) :
    (selectPage pages = some p → p.closed = false →
      pollerTick pages capture = (capture p).map Event.stream) ∧
    (selectPage pages = some p → p.closed = true →
      pollerTick pages capture = none) ∧
    (selectPage pages = none → pollerTick pages capture = none) ∧
    pollerTick [{ url := "about:blank", closed := false },
                { url := "http://a", closed := true },
                { url := "http://b", closed := false }]
      (fun q => some q.url) = some (Event.stream "http://b") ∧
    pollerTick [{ url := "about:blank", closed := false }] capture = none ∧
    (pollerRun ticks).length = ticks.length := by
  refine ⟨fun hs hc => ?_, fun hs hc => ?_, fun hs => ?_, by decide, ?_, ?_⟩
  · rw [pollerTick, hs]
    simp only [hc, if_pos rfl]
    cases hcap : capture p <;> simp [hcap]
  · rw [pollerTick, hs]
    simp [hc]
  · rw [pollerTick, hs]
  · rw [pollerTick]
    have hs : selectPage [({ url := "about:blank", closed := false } : PwPage)] =
        none := by decide
    rw [hs]
  · simp [pollerRun]

/-- Witness for C6 (amended): an open selected page is streamed, a
closed selected page is skipped. -/
theorem c6_snapshot_amended_witness :
    pollerTick [{ url := "http://x", closed := false }] (fun q => some q.url) =
      some (Event.stream "http://x") ∧
    pollerTick [{ url := "http://x", closed := true }] (fun q => some q.url) =
      none :=
  ⟨(c6_snapshot_amended [{ url := "http://x", closed := false }]
      (fun q => some q.url) { url := "http://x", closed := false } []).1
      (by decide) rfl,
   (c6_snapshot_amended [{ url := "http://x", closed := true }]
      (fun q => some q.url) { url := "http://x", closed := true } []).2.1
      (by decide) rfl⟩

/-- The hold loop only counts its activity fuel down: it exits when the
run is no longer active, and at no other point. -/
theorem holdLoop_eq : ∀ fuel t, holdLoop fuel t = t + fuel
  | 0, t => by simp [holdLoop]
  | fuel + 1, t => by
    rw [holdLoop, holdLoop_eq fuel (t + 1)]
    omega

/-- Counterexample to C9 as stated: the remote side disconnects at
tick 1 of a run that stays active until tick 5, yet the handler's
observable behaviour is identical to that of a never-disconnecting
observer — the disconnect is never observed (the handler performs no
receive), the snapshot poller is not stopped and the observer is not
unregistered until the run ends at tick 5. -/
theorem c9_connection_counterexample :
    websocket_endpoint 5 (some 1) = websocket_endpoint 5 none ∧
    (websocket_endpoint 5 (some 1)).disconnectObserved = false ∧
    (websocket_endpoint 5 (some 1)).pollerStarted = true ∧
    (websocket_endpoint 5 (some 1)).exitTick = 5 := by
  refine ⟨rfl, rfl, rfl, ?_⟩
  decide

/-- C9 (amended): every accepted observer connection is registered with
the broadcast set, consumes no inbound messages, and is held until the
active run ends (immediately after the initial grace tick when none is
active); then its snapshot poller is cancelled exactly when one was
started, the observer is unregistered, and no error is raised.  A remote
disconnection is never observed by the handler — it performs no receive,
so the `except WebSocketDisconnect` clause is unreachable and the
outcome is independent of when (or whether) the remote goes away. -/
theorem c9_connection_manager_amended (runEnd : Nat) (remoteGone : Option Nat) :
    (websocket_endpoint runEnd remoteGone).registered = true ∧
    (websocket_endpoint runEnd remoteGone).messagesConsumed = 0 ∧
    (websocket_endpoint runEnd remoteGone).disconnectObserved = false ∧
    (websocket_endpoint runEnd remoteGone).pollerCancelled =
      (websocket_endpoint runEnd remoteGone).pollerStarted ∧
    (websocket_endpoint runEnd remoteGone).unregistered = true ∧
    (websocket_endpoint runEnd remoteGone).errorPropagated = false ∧
    (websocket_endpoint runEnd remoteGone).exitTick = max 1 runEnd ∧
    websocket_endpoint runEnd remoteGone = websocket_endpoint runEnd none := by
  refine ⟨rfl, rfl, rfl, rfl, rfl, rfl, ?_, rfl⟩
  show holdLoop (runEnd - 1) 1 = max 1 runEnd
  rw [holdLoop_eq]
  omega

end WebUI
